import Mathlib

/-!
Shallow embedding of src/parser.js (edu-parser): a batch reconciliation
script that traverses two MongoDB collections and checks, for each word
or audio identifier, whether a corresponding .mp3 object exists in a
Google Cloud Storage bucket, then writes a CSV report per collection.
-/

namespace EduParser

/-- Maximum requests per second, parser.js line 11: `RATE_LIMIT = 20`. -/
def RATE_LIMIT : ℚ := 20

/-- The object resolved by a successful existence check, parser.js lines
132-133: `{ word, found }`. -/
structure CheckResult where
  word : String
  found : Bool
deriving DecidableEq

/-- JavaScript `String.prototype.replace` with a string pattern replaces only
the FIRST occurrence of the pattern. The patterns used in `getFileName` are
single characters, so we model replacement of the first occurrence of a
single character by a replacement character sequence. -/
def replaceFirst (target : Char) (repl : List Char) : List Char → List Char
  | [] => []
  | c :: cs => if c = target then repl ++ cs else c :: replaceFirst target repl cs

/-- Embedding of `getFileName`, parser.js lines 94-98:
`file.replace('・', '').replace('?', '_').replace('/', '_')` followed by
appending the extension `.mp3`. Each `replace` handles only the first
occurrence of its pattern. -/
def getFileName (file : String) : String :=
  String.mk
    (replaceFirst '/' ['_']
      (replaceFirst '?' ['_']
        (replaceFirst '・' [] file.data)) ++ ".mp3".data)

/-- The single storage path probed by `checkGCloud`, parser.js lines 119-121:
`audio/` + course + `/` + getFileName word. No other candidate path is built
anywhere in the file. -/
def gcloudPath (course word : String) : String :=
  "audio/" ++ course ++ "/" ++ getFileName word

/-- Outcome of the backend existence probe as seen by the callback
`firstDirFile.exists((err, res) => ...)`, parser.js line 125: either a
transport error, or a boolean saying whether the object exists. -/
inductive ProbeResult where
  | err (msg : String)
  | ok (res : Bool)
deriving DecidableEq

/-- One settlement action on the promise returned by `checkGCloud`. -/
inductive Settle where
  | resolve (r : CheckResult)
  | reject (msg : String)
deriving DecidableEq

/-- The settlement actions executed, in program order, by the callback body of
`checkGCloud`, parser.js lines 125-134. On `err` the code rejects and then,
since `res` is undefined (so `!res` holds), falls through to
`resolve({ word, found: false })`; on success exactly one resolve runs,
with `found` false when `!res` and true otherwise. -/
def checkGCloudActions (word : String) (p : ProbeResult) : List Settle :=
  match p with
  | .err e => [.reject e, .resolve ⟨word, false⟩]
  | .ok res => if !res then [.resolve ⟨word, false⟩] else [.resolve ⟨word, true⟩]

/-- A JavaScript promise settles at most once: the first resolve or reject
wins and every later settlement action is a no-op. -/
def settledOutcome (acts : List Settle) : Option Settle := acts.head?

/-- The result `checkGCloud` resolves with over an error-free backend
`onStorage : path → present?`: the probe of the one candidate path
`gcloudPath course word` decides `found`, parser.js lines 118-137. -/
def checkGCloudResult (onStorage : String → Bool) (course word : String) :
    CheckResult :=
  ⟨word, onStorage (gcloudPath course word)⟩

/-- The `setTimeout` delay in milliseconds computed for sequence index `i`,
parser.js line 135: `i * 1000 / RATE_LIMIT + 5`. -/
def checkGCloudDelay (i : ℕ) : ℚ :=
  i * 1000 / RATE_LIMIT + 5

/-- `Promise.all` over an array of already-determined promise outcomes:
rejects with the first rejection, otherwise resolves with the array of
values. -/
def promiseAll {ε α : Type} : List (Except ε α) → Except ε (List α)
  | [] => Except.ok []
  | Except.error e :: _ => Except.error e
  | Except.ok a :: rest =>
    match promiseAll rest with
    | Except.error e => Except.error e
    | Except.ok l => Except.ok (a :: l)

/-- `_.where(newArr, { found: true })`, parser.js line 151: keeps the elements
whose `found` property equals `true`; `undefined` array slots (modelled as
`none`) match no property and are dropped. -/
def whereFoundTrue (l : List (Option CheckResult)) : List CheckResult :=
  l.filterMap (fun o =>
    match o with
    | some r => if r.found then some r else none
    | none => none)

/-- The aggregation performed on a resolved response, parser.js lines 150-151:
`_.flatten(resp)` followed by `_.where(newArr, { found: true })`. The variable
receiving this value is named `notFound`. -/
def aggregateNotFound (resp : List (List (Option CheckResult))) :
    List CheckResult :=
  whereFoundTrue resp.flatten

/-- Embedding of `filterAndWrite`, parser.js lines 147-157. The batch is a
list of promise outcomes, each resolving to a list of optional CheckResults
(a vocab element resolves a single slot, modelled as a one-element list; an
activities element is an inner `Promise.all` resolving a list of slots).
If `Promise.all` rejects, the catch handler logs and nothing is written
(`none`); otherwise the flattened, filtered list is handed to `writeToCSV`
(`some csv`). -/
def filterAndWrite
    (promise : List (Except String (List (Option CheckResult)))) :
    Option (List CheckResult) :=
  match promiseAll promise with
  | Except.error _ => none
  | Except.ok resp => some (aggregateNotFound resp)

/-- A vocab document as projected by the query in parser.js line 194:
`{ word: 1, _id: 0 }` with `word ≠ null` guaranteed by the filter. The word
may still be the empty string, which is falsy in JavaScript. -/
structure VocabRecord where
  word : String
deriving DecidableEq

/-- The per-record slot array built by the cursor map of `processVocab`,
parser.js lines 195-201: one slot per record; a check promise is created only
when `vocabRecord.word` is truthy (non-empty), otherwise the map callback
returns `undefined` (`none`). -/
def processVocabSlots (records : List VocabRecord) : List (Option String) :=
  records.map (fun r => if r.word = "" then none else some r.word)

/-- The CheckResults eventually produced for a vocab record stream over an
error-free backend: one per record whose word is non-empty, each from
`checkGCloud`, parser.js lines 195-201. -/
def vocabCheckResults (onStorage : String → Bool) (course : String)
    (records : List VocabRecord) : List CheckResult :=
  records.filterMap (fun r =>
    if r.word = "" then none
    else some (checkGCloudResult onStorage course r.word))

/-- One element of the `content` array of an activities document after the
aggregation filter, parser.js lines 226-243; `audio` stands for the nested
`content.content.audio` field and may be empty (falsy). -/
structure ActivityContent where
  audio : String
deriving DecidableEq

/-- An activities document as produced by the aggregation pipeline. -/
structure ActivityDoc where
  content : List ActivityContent
deriving DecidableEq

/-- The slot arrays built by `processActivities`, parser.js lines 244-253:
for each document, one slot per content element; a check promise is created
only when the audio field is truthy (non-empty). -/
def processActivitySlots (docs : List ActivityDoc) : List (List (Option String)) :=
  docs.map (fun d =>
    d.content.map (fun c => if c.audio = "" then none else some c.audio))

/-- The CheckResults eventually produced per activities document over an
error-free backend, parser.js lines 244-253. -/
def activityCheckResults (onStorage : String → Bool) (course : String)
    (docs : List ActivityDoc) : List (List CheckResult) :=
  docs.map (fun d =>
    d.content.filterMap (fun c =>
      if c.audio = "" then none
      else some (checkGCloudResult onStorage course c.audio)))

/-- Completion behavior of `processVocab`, parser.js lines 202-209: a cursor
error rejects the returned promise; otherwise `filterAndWrite` is fired (not
awaited) and the promise resolves with the string `done`. The first component
is the promise outcome, the second is the CSV eventually written by
`filterAndWrite` (`none` when no file is written). `processActivities`,
parser.js lines 255-262, has the same completion structure. -/
def processVocabRun
    (cursor : Except String (List (Except String (List (Option CheckResult))))) :
    Except String String × Option (List CheckResult) :=
  match cursor with
  | Except.error e => (Except.error e, none)
  | Except.ok batch => (Except.ok "done", filterAndWrite batch)

/-- The promise chain of `parser`, parser.js lines 283-296: connect, then
`processActivities`, then `processVocab`, then close, with one `catch` at the
end. A rejection in `processActivities` skips `processVocab` entirely. The
result is the pair (activities CSV, vocab CSV), `none` meaning the category
wrote no file. -/
def parserOutputs
    (activitiesCursor vocabCursor :
      Except String (List (Except String (List (Option CheckResult))))) :
    Option (List CheckResult) × Option (List CheckResult) :=
  match activitiesCursor with
  | Except.error _ => (none, none)
  | Except.ok actBatch =>
    match vocabCursor with
    | Except.error _ => (filterAndWrite actBatch, none)
    | Except.ok vocBatch => (filterAndWrite actBatch, filterAndWrite vocBatch)

end EduParser

namespace EduParser

/-- Helper: `Promise.all` over a batch containing a rejection rejects. -/
theorem promiseAll_isError_of_mem {ε α : Type} {l : List (Except ε α)} {e : ε}
    (h : Except.error e ∈ l) : ∃ e2, promiseAll l = Except.error e2 := by
  induction l with
  | nil => cases h
  | cons x xs ih =>
    cases x with
    | error e3 => exact ⟨e3, rfl⟩
    | ok a =>
      rcases List.mem_cons.mp h with h1 | h2
      · simp at h1
      · obtain ⟨e2, he⟩ := ih h2
        exact ⟨e2, by simp [promiseAll, he]⟩

/-- Helper: a filterMap whose body guards on a boolean predicate (returning
none on the guard) produces as many elements as the filter by the negated
guard keeps. -/
theorem length_filterMap_guard {α β : Type} (p : α → Prop) [DecidablePred p]
    (g : α → β) :
    ∀ l : List α,
      (l.filterMap (fun a => if p a then none else some (g a))).length
        = (l.filter (fun a => !(p a))).length
  | [] => rfl
  | x :: xs => by
    by_cases h : p x <;>
      simp [List.filterMap_cons, List.filter_cons, h,
        length_filterMap_guard p g xs]

/-- Helper: the total number of CheckResults produced for an activities
document stream equals the number of content elements with a truthy audio
field. -/
theorem activity_results_count (onStorage : String → Bool) (course : String) :
    ∀ docs : List ActivityDoc,
      (activityCheckResults onStorage course docs).flatten.length
        = ((docs.map ActivityDoc.content).flatten.filter
            (fun c => !(c.audio = ""))).length
  | [] => rfl
  | d :: ds => by
    have hd := length_filterMap_guard (fun c : ActivityContent => c.audio = "")
      (fun c => checkGCloudResult onStorage course c.audio) d.content
    have ih := activity_results_count onStorage course ds
    have step : (activityCheckResults onStorage course (d :: ds)).flatten
        = d.content.filterMap (fun c =>
            if c.audio = "" then none
            else some (checkGCloudResult onStorage course c.audio))
          ++ (activityCheckResults onStorage course ds).flatten := rfl
    rw [step, List.length_append, hd, ih, List.map_cons, List.flatten_cons,
      List.filter_append, List.length_append]

/-- C1 (code-bug evidence): for the scenario-1 batch, where storage holds the
object for "cat" only, `filterAndWrite` hands `writeToCSV` exactly the
found=true entry ("cat") — the variable named `notFound` is computed with the
filter `found: true` — instead of the found=false entry ("dog") that the
documented purpose (words in the database but absent from storage) calls
for. -/
theorem filterAndWrite_selects_found_true :
    filterAndWrite [Except.ok [some ⟨"cat", true⟩, some ⟨"dog", false⟩]]
      = some [⟨"cat", true⟩] := by
  decide

/-- C2 counterexample: in a batch in which exactly one check rejected with a
transport error and the other completed, `filterAndWrite` writes no CSV at
all — the claimed otherwise-produced missing report does not exist. -/
theorem filterAndWrite_error_drops_csv :
    ¬ ∃ csv, filterAndWrite [Except.ok [some ⟨"cat", false⟩],
        Except.error "transport error"] = some csv := by
  intro h
  obtain ⟨csv, hc⟩ := h
  simp [filterAndWrite, promiseAll] at hc

/-- C2 (amended): a single probe failure does not abort the category run —
the cursor callback still resolves with `done` — but the whole missing
report for that batch is suppressed: if any element of the batch rejects,
`Promise.all` rejects and `filterAndWrite` writes nothing. -/
theorem processVocab_probe_error_completes_without_csv
    (batch : List (Except String (List (Option CheckResult)))) (msg : String)
    (h : Except.error msg ∈ batch) :
    (processVocabRun (Except.ok batch)).1 = Except.ok "done"
      ∧ (processVocabRun (Except.ok batch)).2 = none := by
  refine ⟨rfl, ?_⟩
  obtain ⟨e2, he⟩ := promiseAll_isError_of_mem h
  simp [processVocabRun, filterAndWrite, he]

/-- Witness for the amended C2 theorem at the scenario-2 batch: one record
whose single check rejects. -/
theorem processVocab_probe_error_witness :
    (processVocabRun (Except.ok [Except.error "transport error"])).1
        = Except.ok "done"
      ∧ (processVocabRun (Except.ok [Except.error "transport error"])).2
          = none :=
  processVocab_probe_error_completes_without_csv
    [Except.error "transport error"] "transport error" (by simp)

/-- C3 counterexample: a one-record stream whose word is the empty string
(falsy in JavaScript, yet allowed through the `word ≠ null` query filter)
produces zero CheckResults, not one: the slot holds `undefined` and no check
is ever issued. -/
theorem vocab_empty_word_drops_result :
    (vocabCheckResults (fun _ => true) "jp" [⟨""⟩]).length
      ≠ ([⟨""⟩] : List VocabRecord).length := by
  decide

/-- C3 (amended): the mapper produces exactly one slot per record, but a
CheckResult only for each record whose identifier field is truthy
(non-empty); records with an empty identifier yield an `undefined` slot
rather than a CheckResult, and a probe failure yields a rejection rather
than a CheckResult with `error` set. -/
theorem mapper_one_result_per_truthy_record
    (records : List VocabRecord) (docs : List ActivityDoc)
    (onStorage : String → Bool) (course : String) :
    (processVocabSlots records).length = records.length
      ∧ (vocabCheckResults onStorage course records).length
          = (records.filter (fun r => !(r.word = ""))).length
      ∧ (processActivitySlots docs).map List.length
          = docs.map (fun d => d.content.length)
      ∧ (activityCheckResults onStorage course docs).flatten.length
          = ((docs.map ActivityDoc.content).flatten.filter
              (fun c => !(c.audio = ""))).length := by
  refine ⟨?_, ?_, ?_, ?_⟩
  · simp [processVocabSlots]
  · exact length_filterMap_guard (fun r : VocabRecord => r.word = "")
      (fun r => checkGCloudResult onStorage course r.word) records
  · simp [processActivitySlots]
  · exact activity_results_count onStorage course docs

/-- C4 counterexample: only the first occurrence of a path-unsafe character
is handled, so the identifier "??" still contains a path-unsafe character
after sanitization. -/
theorem getFileName_keeps_second_unsafe_char :
    getFileName "??" = "_?.mp3" ∧ '?' ∈ (getFileName "??").data := by
  constructor <;> decide

/-- C4 (amended): the sanitization function is deterministic and total and
always yields a non-empty file name ending in the fixed extension .mp3, but
it strips or replaces only the FIRST occurrence of each of the characters
'・', '?', '/'; later occurrences are left in place. -/
theorem getFileName_total_nonempty_mp3 (s : String) :
    getFileName s ≠ "" ∧ ".mp3".data.IsSuffix (getFileName s).data := by
  constructor
  · intro h
    have hd : replaceFirst '/' ['_']
          (replaceFirst '?' ['_'] (replaceFirst '・' [] s.data))
          ++ ".mp3".data = ([] : List Char) :=
      congrArg String.data h
    have h2 := (List.append_eq_nil.mp hd).2
    exact absurd h2 (by decide)
  · exact ⟨_, rfl⟩

/-- C5 counterexample: a backend in which every path except the single probed
candidate exists — in particular any alternate legacy-directory candidate
such as audio2/jp/cat.mp3 — still yields found=false: the check never probes
a second candidate. -/
theorem checkGCloud_ignores_second_candidate :
    (checkGCloudResult (fun p => !(p == gcloudPath "jp" "cat")) "jp" "cat").found
        = false
      ∧ (fun p => !(p == gcloudPath "jp" "cat")) "audio2/jp/cat.mp3" = true := by
  constructor <;> decide

/-- C5 (amended): the existence check probes exactly one candidate path,
`audio/<course>/<getFileName word>`; its outcome equals the presence of that
single path and is unchanged by the presence or absence of any other path. -/
theorem checkGCloud_single_candidate
    (onStorage onStorage2 : String → Bool) (course word : String)
    (h : onStorage (gcloudPath course word)
          = onStorage2 (gcloudPath course word)) :
    checkGCloudResult onStorage course word
        = checkGCloudResult onStorage2 course word
      ∧ (checkGCloudResult onStorage course word).found
          = onStorage (gcloudPath course word) := by
  refine ⟨?_, rfl⟩
  simp [checkGCloudResult, h]

/-- Witness for the amended C5 theorem: two backends that agree on the one
probed path but disagree everywhere else give the same result. -/
theorem checkGCloud_single_candidate_witness :
    ((fun _ => true : String → Bool) (gcloudPath "jp" "cat")
        = (fun p => p == gcloudPath "jp" "cat" : String → Bool)
            (gcloudPath "jp" "cat"))
      ∧ (checkGCloudResult (fun _ => true) "jp" "cat"
            = checkGCloudResult (fun p => p == gcloudPath "jp" "cat") "jp" "cat"
          ∧ (checkGCloudResult (fun _ => true) "jp" "cat").found
              = (fun _ => true : String → Bool) (gcloudPath "jp" "cat")) :=
  ⟨by decide, checkGCloud_single_candidate (fun _ => true)
    (fun p => p == gcloudPath "jp" "cat") "jp" "cat" (by decide)⟩

/-- C6 counterexample: when the activities category (processed first) fails
fatally, the vocab category is never processed and produces no CSV, even
though its own cursor would have succeeded. -/
theorem parser_first_failure_skips_second :
    ¬ ∃ csv, (parserOutputs (Except.error "cursor failure")
        (Except.ok [Except.ok [some ⟨"dog", false⟩]])).2 = some csv := by
  intro h
  obtain ⟨csv, hc⟩ := h
  simp [parserOutputs] at hc

/-- C6 (amended): the two categories share one promise chain with a single
catch: a fatal error in activities (run first) skips vocab entirely, so
neither CSV is written; only when the later vocab category fails does the
earlier activities output remain intact. -/
theorem parser_category_isolation (e : String)
    (vocabCursor : Except String (List (Except String (List (Option CheckResult)))))
    (actBatch : List (Except String (List (Option CheckResult)))) :
    parserOutputs (Except.error e) vocabCursor = (none, none)
      ∧ (parserOutputs (Except.ok actBatch) (Except.error e)).1
          = filterAndWrite actBatch :=
  ⟨rfl, rfl⟩

/-- C7: the delay scheduled for sequence index k is at least
k * (1000 / RATE_LIMIT) milliseconds, so the k-th release happens no earlier
than t0 + k * (1000 / RATE_LIMIT). -/
theorem rateLimit_lower_bound (t0 : ℚ) (k : ℕ) :
    t0 + k * (1000 / RATE_LIMIT) ≤ t0 + checkGCloudDelay k := by
  have h : (k : ℚ) * 1000 / RATE_LIMIT = (k : ℚ) * (1000 / RATE_LIMIT) := by
    rw [mul_div_assoc]
  unfold checkGCloudDelay
  rw [h]
  linarith

/-- C8: the aggregation step is a deterministic pure function of its input
multiset: permuting the response (any arrival order) permutes — hence leaves
equal as a multiset — the set handed to the CSV writer. -/
theorem aggregate_perm_invariant
    (resp resp2 : List (List (Option CheckResult))) (h : resp.Perm resp2) :
    (aggregateNotFound resp).Perm (aggregateNotFound resp2) :=
  h.flatten.filterMap _

/-- Witness for the C8 theorem on a concrete two-element permutation. -/
theorem aggregate_perm_invariant_witness :
    ([[some ⟨"a", true⟩], [some ⟨"b", false⟩]]
        : List (List (Option CheckResult))).Perm
        [[some ⟨"b", false⟩], [some ⟨"a", true⟩]]
      ∧ (aggregateNotFound [[some ⟨"a", true⟩], [some ⟨"b", false⟩]]).Perm
          (aggregateNotFound [[some ⟨"b", false⟩], [some ⟨"a", true⟩]]) :=
  ⟨by decide, aggregate_perm_invariant _ _ (by decide)⟩

/-- C9: the file-name derivation is not injective: the distinct identifiers
"a?b" and "a_b" map to the same storage file name, so two distinct records
probe the same storage object and are indistinguishable in the storage
check. -/
theorem getFileName_not_injective :
    getFileName "a?b" = getFileName "a_b" ∧ ("a?b" : String) ≠ "a_b" := by
  constructor <;> decide

/-- C10: each invocation of the existence check settles its promise exactly
once: the settled outcome is a rejection exactly when the backend probe
reports an error, and otherwise a single resolution whose `found` field is
the backend presence bit; in the error case the fall-through resolve that
runs after the rejection never changes the settled outcome. -/
theorem checkGCloud_settles_once (word : String) (p : ProbeResult) :
    settledOutcome (checkGCloudActions word p)
      = match p with
        | ProbeResult.err e => some (Settle.reject e)
        | ProbeResult.ok res => some (Settle.resolve ⟨word, res⟩) := by
  cases p with
  | err e => rfl
  | ok res => cases res <;> rfl

end EduParser
